import Mathlib

/-!
Shallow embedding of the career-advisor core: the rule-based recommendation
engine (`core/rule_engine.py`) and the catalog validator
(`core/career_db_manager.py`).

Python floats are modelled as exact rationals (`ℚ`), Python ints as `ℤ`,
dictionaries as association lists keyed by `String` (looked up with
`List.lookup`, matching `dict` semantics: unique keys, first match).
-/

namespace CareerAdvisor

/-- `UserProfile` dataclass from `core/rule_engine.py`.  Skill and interest
levels are the integer values of the `SkillLevel` / `InterestLevel` enums
(the rules compare them numerically via `.value`). -/
structure UserProfile where
  skills : List (String × ℤ)
  interests : List (String × ℤ)
  experience_years : ℤ
  education_level : String
  preferred_work_style : String
  salary_expectation : ℤ
  location_preference : String

/-- `CareerPath` dataclass from `core/rule_engine.py`.
`typical_salary_range` is split into its two components. -/
structure CareerPath where
  id : String
  title : String
  description : String
  required_skills : List (String × ℤ)
  relevant_interests : List (String × ℤ)
  min_experience : ℤ
  min_education : String
  salary_min : ℤ
  salary_max : ℤ
  work_style_compatibility : List String
  growth_potential : ℤ
  job_market_demand : ℤ

/-- Python's two-argument `min` on numbers. -/
def pymin (a b : ℚ) : ℚ := if a ≤ b then a else b

/-- Python's two-argument `max` on numbers. -/
def pymax (a b : ℚ) : ℚ := if a ≤ b then b else a

theorem pymin_eq (a b : ℚ) : pymin a b = min a b := (min_def a b).symm

theorem pymax_eq (a b : ℚ) : pymax a b = max a b := by
  unfold pymax
  rcases le_or_lt a b with h | h
  · rw [if_pos h, max_eq_right h]
  · rw [if_neg (not_le.mpr h), max_eq_left h.le]

namespace RuleEngine

/-- One iteration of the `_skill_match_rule` loop: if the user holds the
required skill at `>=` the required level, count it matched and accumulate
the exceedance bonus. -/
def skill_match_step (user : UserProfile) (acc : ℕ × ℚ) (p : String × ℤ) : ℕ × ℚ :=
  match user.skills.lookup p.1 with
  | some u =>
      if u ≥ p.2 then
        (acc.1 + 1, acc.2 + pymax 0 (((u - p.2 : ℤ) : ℚ) * (1 / 10)))
      else acc
  | none => acc

/-- The loop of `_skill_match_rule`: folds over the career's required
skills accumulating `(matched_skills, skill_quality_bonus)`. -/
def skill_match_fold (user : UserProfile) (req : List (String × ℤ)) : ℕ × ℚ :=
  req.foldl (skill_match_step user) (0, 0)

/-- `RuleEngine._skill_match_rule` (40% weight). -/
def skill_match_rule (user : UserProfile) (career : CareerPath) : ℚ :=
  if career.required_skills = [] then 0
  else
    let d := skill_match_fold user career.required_skills
    let base_score : ℚ := (d.1 : ℚ) / (career.required_skills.length : ℚ)
    pymin 1 (base_score + d.2) * (2 / 5)

/-- One iteration of the `_interest_alignment_rule` loop: an interest the
user holds contributes `min(user_level / importance, 1.5)`. -/
def interest_alignment_step (user : UserProfile) (acc : ℚ) (p : String × ℤ) : ℚ :=
  match user.interests.lookup p.1 with
  | some u => acc + pymin ((u : ℚ) / (p.2 : ℚ)) (3 / 2)
  | none => acc

/-- `RuleEngine._interest_alignment_rule` (25% weight). -/
def interest_alignment_rule (user : UserProfile) (career : CareerPath) : ℚ :=
  if career.relevant_interests = [] then 0
  else
    let alignment_score : ℚ :=
      career.relevant_interests.foldl (interest_alignment_step user) 0
    pymin 1 (alignment_score / (career.relevant_interests.length : ℚ)) * (1 / 4)

/-- `RuleEngine._experience_requirement_rule` (15% weight). -/
def experience_requirement_rule (user : UserProfile) (career : CareerPath) : ℚ :=
  if user.experience_years ≥ career.min_experience then
    let bonus : ℚ :=
      pymin (1 / 5) (((user.experience_years - career.min_experience : ℤ) : ℚ) * (1 / 50))
    pymin 1 (4 / 5 + bonus) * (3 / 20)
  else
    let deficit : ℚ := ((career.min_experience - user.experience_years : ℤ) : ℚ)
    pymax 0 (2 / 5 - pymin (3 / 5) (deficit * (1 / 10))) * (3 / 20)

/-- ASCII lower-casing of one character (`str.lower()` on the ASCII
range, which covers every education tag the hierarchy knows). -/
def lowerChar (c : Char) : Char :=
  if 65 ≤ c.toNat ∧ c.toNat ≤ 90 then Char.ofNat (c.toNat + 32) else c

/-- Python `str.lower()`. -/
def lower (s : String) : String := ⟨s.data.map lowerChar⟩

/-- The `education_hierarchy` mapping of `_education_compatibility_rule`
(`dict.get` with default 1, keys compared after `.lower()`). -/
def education_hierarchy (s : String) : ℤ :=
  if lower s = "high_school" then 1
  else if lower s = "associate" then 2
  else if lower s = "bachelor" then 3
  else if lower s = "master" then 4
  else if lower s = "phd" then 5
  else 1

/-- `RuleEngine._education_compatibility_rule` (10% weight). -/
def education_compatibility_rule (user : UserProfile) (career : CareerPath) : ℚ :=
  let user_edu_level := education_hierarchy user.education_level
  let required_edu_level := education_hierarchy career.min_education
  if user_edu_level ≥ required_edu_level then 1 * (1 / 10)
  else
    pymax 0 (((user_edu_level : ℚ) / (required_edu_level : ℚ)) * (7 / 10)) * (1 / 10)

/-- `RuleEngine._salary_expectation_rule` (5% weight). -/
def salary_expectation_rule (user : UserProfile) (career : CareerPath) : ℚ :=
  if career.salary_min ≤ user.salary_expectation ∧
      user.salary_expectation ≤ career.salary_max then
    1 * (1 / 20)
  else if user.salary_expectation < career.salary_min then
    (4 / 5) * (1 / 20)
  else
    let overage : ℚ := ((user.salary_expectation - career.salary_max : ℤ) : ℚ)
    if overage ≤ (career.salary_max : ℚ) * (1 / 5) then (3 / 5) * (1 / 20)
    else (1 / 5) * (1 / 20)

/-- `RuleEngine._work_style_preference_rule` (3% weight). -/
def work_style_preference_rule (user : UserProfile) (career : CareerPath) : ℚ :=
  if user.preferred_work_style ∈ career.work_style_compatibility then 1 * (3 / 100)
  else 0

/-- `RuleEngine._market_demand_bonus_rule` (1% weight). -/
def market_demand_bonus_rule (_user : UserProfile) (career : CareerPath) : ℚ :=
  ((career.job_market_demand : ℚ) / 10) * (1 / 100)

/-- `RuleEngine._growth_potential_bonus_rule` (1% weight). -/
def growth_potential_bonus_rule (_user : UserProfile) (career : CareerPath) : ℚ :=
  ((career.growth_potential : ℚ) / 10) * (1 / 100)

/-- `RuleEngine.calculate_career_score`: sum of the eight rules in the order
of `_initialize_rules`, capped at 1.0. -/
def calculate_career_score (user : UserProfile) (career : CareerPath) : ℚ :=
  pymin 1
    (skill_match_rule user career +
     interest_alignment_rule user career +
     experience_requirement_rule user career +
     education_compatibility_rule user career +
     salary_expectation_rule user career +
     work_style_preference_rule user career +
     market_demand_bonus_rule user career +
     growth_potential_bonus_rule user career)

/-- The explanation dictionary built by `_generate_explanation`.  The
`overall` entry is the Python format string `f"Overall compatibility:
{score:.1%}"`; its payload (the score) is kept as a rational here. -/
structure Explanation where
  overall : ℚ
  strengths : List String
  considerations : List String
deriving DecidableEq

/-- `RuleEngine._generate_explanation`: strengths and considerations are
appended in the source's order (skill, interest, experience, salary). -/
def generate_explanation (user : UserProfile) (career : CareerPath) (score : ℚ) :
    Explanation :=
  let skill_score := skill_match_rule user career / (2 / 5)
  let interest_score := interest_alignment_rule user career / (1 / 4)
  { overall := score
    strengths :=
      (if skill_score > 4 / 5 then ["Strong skill alignment"] else []) ++
      (if interest_score > 4 / 5 then ["Excellent interest match"] else [])
    considerations :=
      (if skill_score > 4 / 5 then []
       else if skill_score < 1 / 2 then ["May need to develop additional skills"]
       else []) ++
      (if interest_score > 4 / 5 then []
       else if interest_score < 1 / 2 then ["Interest alignment could be better"]
       else []) ++
      (if user.experience_years < career.min_experience then
        ["Needs " ++ toString (career.min_experience - user.experience_years) ++
          " more years of experience"]
       else []) ++
      (if user.salary_expectation > career.salary_max then
        ["Salary expectations may be above typical range"]
       else []) }

/-- One entry of the list returned by `get_recommendations`. -/
abbrev Recommendation := CareerPath × ℚ × Explanation

/-- The comparison used by `scored_careers.sort(key=lambda x: x[1],
reverse=True)`: descending by score. -/
def scoreGe (x y : Recommendation) : Prop := y.2.1 ≤ x.2.1

instance : DecidableRel scoreGe := fun x y => inferInstanceAs (Decidable (y.2.1 ≤ x.2.1))

instance : IsTotal Recommendation scoreGe := ⟨fun x y => le_total y.2.1 x.2.1⟩

instance : IsTrans Recommendation scoreGe := ⟨fun _ _ _ h₁ h₂ => le_trans h₂ h₁⟩

/-- `RuleEngine.get_recommendations` over an explicit catalog
(`self.career_paths`).  Python's `list.sort` is stable, and a stable sort
is uniquely determined by the comparison, so it is modelled by the stable
`List.insertionSort` under the descending-score relation; `[:top_n]` is
`List.take`. -/
def get_recommendations (career_paths : List CareerPath) (user : UserProfile)
    (top_n : ℕ) : List Recommendation :=
  let scored_careers : List Recommendation :=
    career_paths.map fun career =>
      (career, calculate_career_score user career,
        generate_explanation user career (calculate_career_score user career))
  (scored_careers.insertionSort scoreGe).take top_n

end RuleEngine

namespace RuleEngine

/-- The scenario profile of spec §8 (`programming: INTERMEDIATE(2)`,
`problem_solving: ADVANCED(3)`, `technology: HIGH(3)`, `innovation: HIGH(3)`,
3 years experience, bachelor, remote, 85000). -/
def scenario_user : UserProfile :=
  { skills := [("programming", 2), ("problem_solving", 3)]
    interests := [("technology", 3), ("innovation", 3)]
    experience_years := 3
    education_level := "bachelor"
    preferred_work_style := "remote"
    salary_expectation := 85000
    location_preference := "" }

/-- The scenario career of spec §8 (the "Software Engineer" entry of
`_get_default_careers`). -/
def scenario_career : CareerPath :=
  { id := "software_engineer"
    title := "Software Engineer"
    description := "Develop and maintain software applications"
    required_skills := [("programming", 2), ("problem_solving", 3)]
    relevant_interests := [("technology", 3), ("innovation", 3)]
    min_experience := 2
    min_education := "bachelor"
    salary_min := 70000
    salary_max := 120000
    work_style_compatibility := ["remote", "hybrid"]
    growth_potential := 9
    job_market_demand := 8 }

end RuleEngine

/-! ### Module-level semantics of `core/rule_engine.py`

The file contains two `class RuleEngine:` statements (lines 48 and 314).
Python executes class statements sequentially, each rebinding the module
attribute `RuleEngine`, so the later definition wins at import time. -/

/-- The two `class RuleEngine` definitions in `core/rule_engine.py`, in
source order. -/
inductive RuleEngineClass where
  | firstDef
  | secondDef
deriving DecidableEq

/-- The method names (other than inherited ones) of each `RuleEngine` class
body. -/
def ruleEngineMethods : RuleEngineClass → List String
  | .firstDef =>
      ["__init__", "_load_career_database", "_get_default_careers",
       "_initialize_rules", "_skill_match_rule", "_interest_alignment_rule",
       "_experience_requirement_rule", "_education_compatibility_rule",
       "_salary_expectation_rule", "_work_style_preference_rule",
       "_market_demand_bonus_rule", "_growth_potential_bonus_rule",
       "calculate_career_score", "get_recommendations", "_generate_explanation"]
  | .secondDef => ["__init__", "get_recommendations"]

/-- The top-level `class RuleEngine` statements of the module, in execution
order. -/
def ruleEngineBindings : List (String × RuleEngineClass) :=
  [("RuleEngine", .firstDef), ("RuleEngine", .secondDef)]

/-- The module namespace after import: each class statement rebinds its
name, later statements overwriting earlier ones. -/
def moduleAttr (name : String) : Option RuleEngineClass :=
  ruleEngineBindings.foldl
    (fun env b => fun n => if n = b.1 then some b.2 else env n)
    (fun _ => none)
    name

/-- `get_recommendations` of the second `RuleEngine` class: ignores its
`user_query` argument and returns a fixed placeholder string. -/
def secondGetRecommendations (_user_query : String) : String :=
  "Based on our rule engine, here are some careers you might be interested in:\n" ++
  "- Software Developer\n" ++
  "- Data Analyst\n" ++
  "- UX/UI Designer\n" ++
  "(Note: This is a placeholder response.)"

/-! ### Catalog validator (`core/career_db_manager.py`) -/

namespace CareerDatabaseManager

/-- One scalar value of the parsed table, as the validator observes it:
`asNum` is the result of `pd.to_numeric(·, errors="coerce")` (`none` = NaN),
`isStr` is `isinstance(value, str)`, `jsonOk` records whether `json.loads`
succeeds on the text, and `text` is the rendered value (used for the
`title`, `id` and `min_education` columns). -/
structure Cell where
  asNum : Option ℚ
  isStr : Bool
  jsonOk : Bool
  text : String
deriving DecidableEq

/-- A parsed tabular source (`pd.read_csv` result): column names plus one
cell-valued row function per record.  Rows are total functions; the
validator only consults columns it has checked to exist. -/
structure Table where
  columns : List String
  rows : List (String → Cell)

/-- The outcome of `pd.read_csv(self.csv_path)` inside the `try` block. -/
inductive CsvSource where
  | fileNotFound
  | readFailure
  | ok (t : Table)

/-- The errors appended to `results["errors"]`, one constructor per format
string in the source. -/
inductive VError where
  | fileNotFound
  | readFailure
  | missingColumns (cols : List String)
  | duplicateIds (ids : List String)
  | nonNumeric (field : String) (titles : List String)
  | invalidJson (field : String) (titles : List String)
deriving DecidableEq

/-- The warnings appended to `results["warnings"]`. -/
inductive VWarning where
  | emptyCsv
  | salaryMinNotBelowMax (titles : List String)
  | scaleOutOfRange (field : String) (titles : List String)
deriving DecidableEq

/-- `self.required_columns`. -/
def required_columns : List String :=
  ["id", "title", "description", "required_skills", "relevant_interests",
   "min_experience", "min_education", "salary_min", "salary_max",
   "work_style_compatibility", "growth_potential", "job_market_demand"]

/-- `self.numeric_fields`. -/
def numeric_fields : List String :=
  ["min_experience", "salary_min", "salary_max",
   "growth_potential", "job_market_demand"]

/-- `self.json_fields`. -/
def json_fields : List String :=
  ["required_skills", "relevant_interests", "work_style_compatibility"]

/-- `int()` applied to a float: truncation toward zero. -/
def intTrunc (q : ℚ) : ℤ := if 0 ≤ q then ⌊q⌋ else ⌈q⌉

/-- Python 3 `round` to an integer: round-half-to-even. -/
def roundHalfEven (q : ℚ) : ℤ :=
  if q - ⌊q⌋ = 1 / 2 then (if Even ⌊q⌋ then ⌊q⌋ else ⌊q⌋ + 1) else ⌊q + 1 / 2⌋

/-- Python `round(q, 1)`. -/
def roundTo1 (q : ℚ) : ℚ := (roundHalfEven (q * 10) : ℚ) / 10

/-- `df.duplicated(subset=["id"])` followed by `["id"].tolist()`: the
rendered `id` of every row whose `id` value already appeared in an earlier
row. -/
def duplicated_ids (rows : List (String → Cell)) : List String :=
  (rows.foldl
    (fun (acc : List Cell × List String) r =>
      let idc := r "id"
      if idc ∈ acc.1 then (acc.1, acc.2 ++ [idc.text])
      else (acc.1 ++ [idc], acc.2))
    ([], [])).2

/-- Pandas elementwise `>=` between two float columns: `False` whenever a
side is NaN. -/
def numGe (a b : Option ℚ) : Bool :=
  match a, b with
  | some x, some y => decide (y ≤ x)
  | _, _ => false

/-- Pandas `Series.between(1, 10)` on a float value: `False` on NaN. -/
def numBetween1and10 (a : Option ℚ) : Bool :=
  match a with
  | some x => decide (1 ≤ x ∧ x ≤ 10)
  | none => false

/-- Column minimum (`df[c].min()`), skipping NaN as pandas does; only
evaluated on non-empty, all-numeric columns. -/
def colMin (l : List ℚ) : ℚ :=
  match l with
  | [] => 0
  | a :: t => t.foldl pymin a

/-- Column maximum (`df[c].max()`), skipping NaN. -/
def colMax (l : List ℚ) : ℚ :=
  match l with
  | [] => 0
  | a :: t => t.foldl pymax a

/-- Column mean (`df[c].mean()`). -/
def colMean (l : List ℚ) : ℚ := l.sum / (l.length : ℚ)

/-- The numeric values of a column after coercion, NaN skipped (pandas
aggregations use `skipna=True`). -/
def colVals (rows : List (String → Cell)) (field : String) : List ℚ :=
  rows.filterMap fun r => (r field).asNum

/-- `df["min_education"].unique().tolist()`: distinct values in order of
first appearance. -/
def uniqueInOrder (l : List String) : List String :=
  (l.foldl (fun acc v => if v ∈ acc then acc else acc ++ [v]) [])

/-- The `results["stats"]` dictionary (step 6 of
`validate_csv_structure`). -/
structure CatalogStats where
  total_careers : ℕ
  unique_education_levels : List String
  salary_min : ℤ
  salary_max : ℤ
  salary_avg_min : ℤ
  salary_avg_max : ℤ
  experience_min : ℤ
  experience_max : ℤ
  experience_avg : ℚ
deriving DecidableEq

/-- The validation report.  `stats = none` models the empty dict `{}`. -/
structure ValidationResults where
  valid : Bool
  errors : List VError
  warnings : List VWarning
  stats : Option CatalogStats
deriving DecidableEq

/-- `CareerDatabaseManager.validate_csv_structure`, following the source's
control flow: early returns for unreadable/empty sources and missing
columns; duplicate-id and numeric checks accumulate errors and then the
`if not results["valid"]: return results` gate fires; JSON checks, range
warnings and statistics follow. -/
def validate_csv_structure (src : CsvSource) : ValidationResults :=
  match src with
  | .fileNotFound => ⟨false, [.fileNotFound], [], none⟩
  | .readFailure => ⟨false, [.readFailure], [], none⟩
  | .ok t =>
    if t.rows.isEmpty then ⟨true, [], [.emptyCsv], none⟩
    else
      let missing_columns := required_columns.filter fun c => c ∉ t.columns
      if ¬ missing_columns.isEmpty then
        ⟨false, [.missingColumns missing_columns], [], none⟩
      else
        let duplicate_ids := duplicated_ids t.rows
        let dupErrors : List VError :=
          if duplicate_ids.isEmpty then [] else [.duplicateIds duplicate_ids]
        let numErrors : List VError :=
          numeric_fields.filterMap fun field =>
            let invalid_rows :=
              (t.rows.filter fun r => (r field).asNum.isNone).map fun r =>
                (r "title").text
            if invalid_rows.isEmpty then none
            else some (.nonNumeric field invalid_rows)
        if ¬ (dupErrors ++ numErrors).isEmpty then
          ⟨false, dupErrors ++ numErrors, [], none⟩
        else
          let jsonErrors : List VError :=
            json_fields.filterMap fun field =>
              let invalid_json_rows :=
                (t.rows.filter fun r => (r field).isStr && !(r field).jsonOk).map
                  fun r => (r "title").text
              if invalid_json_rows.isEmpty then none
              else some (.invalidJson field invalid_json_rows)
          let salary_issues :=
            (t.rows.filter fun r =>
              numGe (r "salary_min").asNum (r "salary_max").asNum).map
              fun r => (r "title").text
          let salaryWarnings : List VWarning :=
            if salary_issues.isEmpty then []
            else [.salaryMinNotBelowMax salary_issues]
          let scaleWarnings : List VWarning :=
            ["growth_potential", "job_market_demand"].filterMap fun field =>
              let out_of_range :=
                (t.rows.filter fun r => !numBetween1and10 (r field).asNum).map
                  fun r => (r "title").text
              if out_of_range.isEmpty then none
              else some (.scaleOutOfRange field out_of_range)
          let stats : CatalogStats :=
            { total_careers := t.rows.length
              unique_education_levels :=
                uniqueInOrder (t.rows.map fun r => (r "min_education").text)
              salary_min := intTrunc (colMin (colVals t.rows "salary_min"))
              salary_max := intTrunc (colMax (colVals t.rows "salary_max"))
              salary_avg_min := intTrunc (colMean (colVals t.rows "salary_min"))
              salary_avg_max := intTrunc (colMean (colVals t.rows "salary_max"))
              experience_min := intTrunc (colMin (colVals t.rows "min_experience"))
              experience_max := intTrunc (colMax (colVals t.rows "min_experience"))
              experience_avg := roundTo1 (colMean (colVals t.rows "min_experience")) }
          ⟨jsonErrors.isEmpty, jsonErrors, salaryWarnings ++ scaleWarnings,
            some stats⟩

/-- A non-string numeric cell (a float parsed by `read_csv`). -/
def cellN (q : ℚ) : Cell := ⟨some q, false, false, ""⟩

/-- A string cell: coerces to NaN under `to_numeric`; `ok` says whether
`json.loads` accepts it. -/
def cellS (txt : String) (ok : Bool) : Cell := ⟨none, true, ok, txt⟩

/-- Row of a catalog whose data would also trip the JSON check (bad
`required_skills`) and the salary-range warning (`salary_min > salary_max`),
were those checks reached. -/
def dupRow1 : String → Cell := fun c =>
  if c = "id" then cellS "eng" false
  else if c = "title" then cellS "T1" false
  else if c = "description" then cellS "D1" false
  else if c = "required_skills" then cellS "oops" false
  else if c = "relevant_interests" then cellS "[]" true
  else if c = "work_style_compatibility" then cellS "[]" true
  else if c = "min_experience" then cellN 2
  else if c = "min_education" then cellS "bachelor" false
  else if c = "salary_min" then cellN 100000
  else if c = "salary_max" then cellN 50000
  else if c = "growth_potential" then cellN 9
  else cellN 8

/-- Second row with the same `id` as `dupRow1` and otherwise clean data. -/
def dupRow2 : String → Cell := fun c =>
  if c = "id" then cellS "eng" false
  else if c = "title" then cellS "T2" false
  else if c = "description" then cellS "D2" false
  else if c = "required_skills" then cellS "[]" true
  else if c = "relevant_interests" then cellS "[]" true
  else if c = "work_style_compatibility" then cellS "[]" true
  else if c = "min_experience" then cellN 4
  else if c = "min_education" then cellS "master" false
  else if c = "salary_min" then cellN 50000
  else if c = "salary_max" then cellN 100000
  else if c = "growth_potential" then cellN 8
  else cellN 7

/-- A readable catalog with a duplicated `id`, an invalid JSON field and a
salary-range violation. -/
def dupTable : Table := ⟨required_columns, [dupRow1, dupRow2]⟩

/-- Clean catalog row. -/
def jsonRow1 : String → Cell := fun c =>
  if c = "id" then cellS "a" false
  else if c = "title" then cellS "T1" false
  else if c = "description" then cellS "D1" false
  else if c = "required_skills" then cellS "[]" true
  else if c = "relevant_interests" then cellS "[]" true
  else if c = "work_style_compatibility" then cellS "[]" true
  else if c = "min_experience" then cellN 2
  else if c = "min_education" then cellS "bachelor" false
  else if c = "salary_min" then cellN 70000
  else if c = "salary_max" then cellN 120000
  else if c = "growth_potential" then cellN 9
  else cellN 8

/-- Row whose `required_skills` value fails to parse as JSON; everything
else is clean. -/
def jsonRow2 : String → Cell := fun c =>
  if c = "id" then cellS "b" false
  else if c = "title" then cellS "T2" false
  else if c = "description" then cellS "D2" false
  else if c = "required_skills" then cellS "oops" false
  else if c = "relevant_interests" then cellS "[]" true
  else if c = "work_style_compatibility" then cellS "[]" true
  else if c = "min_experience" then cellN 4
  else if c = "min_education" then cellS "master" false
  else if c = "salary_min" then cellN 80000
  else if c = "salary_max" then cellN 140000
  else if c = "growth_potential" then cellN 10
  else cellN 8

/-- A readable catalog with unique ids and clean numerics but one invalid
JSON value. -/
def jsonTable : Table := ⟨required_columns, [jsonRow1, jsonRow2]⟩

/-- A readable source with a header that misses most required columns and
no data rows. -/
def emptyMissingTable : Table := ⟨["id"], []⟩

/-- A readable, non-empty source missing all required columns except `id`
and `title`. -/
def missingColsRow : String → Cell := fun _ => cellS "x" false

/-- One-row table whose header misses ten of the twelve required columns. -/
def missingColsTable : Table := ⟨["id", "title"], [missingColsRow]⟩

/-- Claim C3 (refuted by the code, matching the stated intent of the spec
and of the source's own comment): `dupTable` has a duplicate `id`, all
required columns and clean numerics, plus an invalid JSON value and a
`salary_min > salary_max` row that the later checks would flag — yet the
validator returns only the duplicate-id error, with no JSON error, no
warnings and empty stats, because `if not results["valid"]: return` fires
on the duplicate-id flag before those checks run. -/
theorem claim_C3_duplicates_stop_processing :
    validate_csv_structure (.ok dupTable) =
      ⟨false, [.duplicateIds ["eng"]], [], none⟩ := by
  simp [validate_csv_structure, dupTable, dupRow1, dupRow2,
    duplicated_ids, required_columns, numeric_fields, json_fields,
    cellN, cellS]

/-- Claim C4 (refuted by the code, matching the stated intent of the
source's own step-6 comment): on `jsonTable` the invalid JSON value sets
`valid=false`, but statistics are still computed and returned non-empty. -/
theorem claim_C4_stats_populated_despite_invalid :
    (validate_csv_structure (.ok jsonTable)).valid = false ∧
    (validate_csv_structure (.ok jsonTable)).stats =
      some ⟨2, ["bachelor", "master"], 70000, 140000, 75000, 130000,
        2, 4, 3⟩ := by
  have h :
      validate_csv_structure (.ok jsonTable) =
        ⟨false, [.invalidJson "required_skills" ["T2"]], [],
          some ⟨2, ["bachelor", "master"], 70000, 140000, 75000, 130000,
            2, 4, 3⟩⟩ := by
    simp [validate_csv_structure, jsonTable, jsonRow1, jsonRow2,
      duplicated_ids, required_columns, numeric_fields, json_fields,
      numGe, numBetween1and10, colVals, colMin, colMax, colMean,
      uniqueInOrder, intTrunc, roundTo1, roundHalfEven, pymin, pymax,
      cellN, cellS]
    norm_num
  rw [h]
  exact ⟨rfl, rfl⟩

/-- Counterexample to claim C5 as stated: `emptyMissingTable` is a
readable source missing eleven required columns, yet — having zero rows —
it is reported `valid=true` with no errors (the empty-source early return
precedes the column check). -/
theorem claim_C5_counterexample :
    (∃ c ∈ required_columns, c ∉ emptyMissingTable.columns) ∧
    validate_csv_structure (.ok emptyMissingTable) =
      ⟨true, [], [.emptyCsv], none⟩ := by
  refine ⟨⟨"title", by simp [required_columns, emptyMissingTable]⟩, ?_⟩
  simp [validate_csv_structure, emptyMissingTable]

/-- Claim C5 as amended: for every readable source with at least one row
that is missing at least one required column, the validator returns
`valid=false`, exactly one error listing all the missing columns, no
warnings and empty stats. -/
theorem claim_C5_missing_columns (t : Table) (hrows : t.rows ≠ [])
    (hmiss : ∃ c ∈ required_columns, c ∉ t.columns) :
    validate_csv_structure (.ok t) =
      ⟨false,
        [.missingColumns (required_columns.filter fun c => c ∉ t.columns)],
        [], none⟩ := by
  obtain ⟨c, hc, hnc⟩ := hmiss
  have hmem : c ∈ required_columns.filter fun c => c ∉ t.columns :=
    List.mem_filter.mpr ⟨hc, by simpa using hnc⟩
  have h1 : ¬ (t.rows.isEmpty = true) := fun hh => hrows (List.isEmpty_iff.mp hh)
  have h2 :
      ¬ ((required_columns.filter fun c => c ∉ t.columns).isEmpty = true) :=
    fun hh => List.ne_nil_of_mem hmem (List.isEmpty_iff.mp hh)
  unfold validate_csv_structure
  dsimp only
  rw [if_neg h1, if_pos h2]

/-- Witness for the amended C5 on the concrete one-row table whose header
only has `id` and `title`. -/
theorem claim_C5_missing_columns_witness :
    validate_csv_structure (.ok missingColsTable) =
      ⟨false,
        [.missingColumns
          ["description", "required_skills", "relevant_interests",
           "min_experience", "min_education", "salary_min", "salary_max",
           "work_style_compatibility", "growth_potential",
           "job_market_demand"]], [], none⟩ := by
  have h := claim_C5_missing_columns missingColsTable
    (by simp [missingColsTable])
    ⟨"description", by simp [required_columns], by simp [missingColsTable]⟩
  rw [h]
  simp [missingColsTable, required_columns]

end CareerDatabaseManager

/-! ### Helper lemmas about `pymin` / `pymax` -/

theorem pymin_le_left (a b : ℚ) : pymin a b ≤ a := by
  rw [pymin_eq]; exact min_le_left a b

theorem pymin_le_right (a b : ℚ) : pymin a b ≤ b := by
  rw [pymin_eq]; exact min_le_right a b

theorem le_pymin {a b c : ℚ} (h₁ : c ≤ a) (h₂ : c ≤ b) : c ≤ pymin a b := by
  rw [pymin_eq]; exact le_min h₁ h₂

theorem pymax_le {a b c : ℚ} (h₁ : a ≤ c) (h₂ : b ≤ c) : pymax a b ≤ c := by
  rw [pymax_eq]; exact max_le h₁ h₂

theorem le_pymax_left (a b : ℚ) : a ≤ pymax a b := by
  rw [pymax_eq]; exact le_max_left a b

theorem pymin_mono {a b c d : ℚ} (h₁ : a ≤ c) (h₂ : b ≤ d) :
    pymin a b ≤ pymin c d := by
  rw [pymin_eq, pymin_eq]; exact min_le_min h₁ h₂

theorem pymax_mono {a b c d : ℚ} (h₁ : a ≤ c) (h₂ : b ≤ d) :
    pymax a b ≤ pymax c d := by
  rw [pymax_eq, pymax_eq]; exact max_le_max h₁ h₂

namespace RuleEngine

/-- `education_hierarchy` only takes values in `[1, 5]`; in particular the
default for an unrecognized tag is the lowest rank 1. -/
theorem education_hierarchy_bounds (s : String) :
    1 ≤ education_hierarchy s ∧ education_hierarchy s ≤ 5 := by
  unfold education_hierarchy
  split_ifs <;> norm_num

/-- An unrecognized `min_education` tag falls through every branch of the
hierarchy and gets the default rank 1. -/
theorem education_hierarchy_default {s : String}
    (h : lower s ∉ ["high_school", "associate", "bachelor", "master", "phd"]) :
    education_hierarchy s = 1 := by
  simp only [List.mem_cons, List.not_mem_nil, or_false, not_or] at h
  unfold education_hierarchy
  rw [if_neg h.1, if_neg h.2.1, if_neg h.2.2.1, if_neg h.2.2.2.1,
    if_neg h.2.2.2.2]

end RuleEngine

/-! ### Claims -/

namespace RuleEngine

/-- Claim C7: on the concrete scenario profile and career of the spec, the
eight sub-scores are skill 0.40, interest 0.25, experience 0.123,
education 0.10, salary 0.05, work style 0.03, demand bonus 0.008, growth
bonus 0.009, and the total compatibility score is 0.97. -/
theorem claim_C7_concrete_scenario :
    skill_match_rule scenario_user scenario_career = 0.40 ∧
    interest_alignment_rule scenario_user scenario_career = 0.25 ∧
    experience_requirement_rule scenario_user scenario_career = 0.123 ∧
    education_compatibility_rule scenario_user scenario_career = 0.10 ∧
    salary_expectation_rule scenario_user scenario_career = 0.05 ∧
    work_style_preference_rule scenario_user scenario_career = 0.03 ∧
    market_demand_bonus_rule scenario_user scenario_career = 0.008 ∧
    growth_potential_bonus_rule scenario_user scenario_career = 0.009 ∧
    calculate_career_score scenario_user scenario_career = 0.97 := by
  refine ⟨?_, ?_, ?_, ?_, ?_, ?_, ?_, ?_, ?_⟩ <;>
    · simp [calculate_career_score, skill_match_rule, skill_match_fold,
        skill_match_step, interest_alignment_rule, interest_alignment_step,
        experience_requirement_rule, education_compatibility_rule,
        education_hierarchy, lower, lowerChar, salary_expectation_rule,
        work_style_preference_rule, market_demand_bonus_rule,
        growth_potential_bonus_rule, scenario_user, scenario_career,
        List.lookup, pymin, pymax]
      norm_num

/-- Claim C9 (implicit): a career whose `min_education` tag is not one of
the five recognized tags (after lower-casing) maps to the default rank 1,
so every user clears the requirement and receives the full 0.10 education
sub-score. -/
theorem claim_C9_unknown_education_tag (user : UserProfile) (career : CareerPath)
    (h : lower career.min_education ∉
      ["high_school", "associate", "bachelor", "master", "phd"]) :
    education_compatibility_rule user career = 0.10 := by
  unfold education_compatibility_rule
  rw [education_hierarchy_default h,
    if_pos (education_hierarchy_bounds user.education_level).1]
  norm_num

/-- A career record whose `min_education` tag `"bootcamp"` is outside the
education hierarchy. -/
def bootcampCareer : CareerPath :=
  { scenario_career with min_education := "bootcamp" }

/-- A profile at the lowest education rank. -/
def highSchoolUser : UserProfile :=
  { scenario_user with education_level := "high_school" }

/-- Witness for C9: concrete unrecognized tag, concrete lowest-rank user,
full education credit. -/
theorem claim_C9_witness :
    lower bootcampCareer.min_education ∉
      ["high_school", "associate", "bachelor", "master", "phd"] ∧
    education_compatibility_rule highSchoolUser bootcampCareer = 0.10 :=
  ⟨by decide, claim_C9_unknown_education_tag highSchoolUser bootcampCareer
    (by decide)⟩

/-- A successful association-list lookup returns a member of the list. -/
theorem lookup_mem :
    ∀ {l : List (String × ℤ)} {k : String} {v : ℤ},
      l.lookup k = some v → (k, v) ∈ l := by
  intro l
  induction l with
  | nil => intro k v h; simp [List.lookup] at h
  | cons p t ih =>
    obtain ⟨a, b⟩ := p
    intro k v h
    simp only [List.lookup] at h
    rcases hk : (k == a) with _ | _
    · rw [hk] at h
      exact List.mem_cons_of_mem _ (ih h)
    · rw [hk] at h
      have hka : k = a := by simpa using hk
      have hvb : v = b := by simpa using h.symm
      subst hka
      subst hvb
      exact List.mem_cons_self _ _

/-- The profile side of the data model: every skill and interest level is
one of the `SkillLevel` / `InterestLevel` enum values 1..4. -/
def WellFormedProfile (user : UserProfile) : Prop :=
  (∀ p ∈ user.skills, 1 ≤ p.2 ∧ p.2 ≤ 4) ∧
  (∀ p ∈ user.interests, 1 ≤ p.2 ∧ p.2 ≤ 4)

/-- The career side of the data model: required levels and importances are
enum values 1..4; growth potential and market demand are on the declared
1..10 scale. -/
def WellFormedCareer (career : CareerPath) : Prop :=
  (∀ p ∈ career.required_skills, 1 ≤ p.2 ∧ p.2 ≤ 4) ∧
  (∀ p ∈ career.relevant_interests, 1 ≤ p.2 ∧ p.2 ≤ 4) ∧
  (1 ≤ career.growth_potential ∧ career.growth_potential ≤ 10) ∧
  (1 ≤ career.job_market_demand ∧ career.job_market_demand ≤ 10)

/-- The skill loop never decreases the accumulated bonus. -/
theorem foldl_skill_step_snd_le (user : UserProfile) :
    ∀ (req : List (String × ℤ)) (acc : ℕ × ℚ),
      acc.2 ≤ (req.foldl (skill_match_step user) acc).2
  | [], _ => le_refl _
  | p :: t, acc => by
    rw [List.foldl_cons]
    refine le_trans ?_ (foldl_skill_step_snd_le user t (skill_match_step user acc p))
    unfold skill_match_step
    rcases hl : user.skills.lookup p.1 with _ | u
    · exact le_refl _
    · dsimp only
      split_ifs with hu
      · exact le_add_of_nonneg_right (le_pymax_left 0 _)
      · exact le_refl _

/-- The skill sub-score lies in `[0, 0.4]` for every profile and career. -/
theorem skill_match_rule_bounds (user : UserProfile) (career : CareerPath) :
    0 ≤ skill_match_rule user career ∧ skill_match_rule user career ≤ 2 / 5 := by
  unfold skill_match_rule
  split_ifs with h
  · norm_num
  · constructor
    · refine mul_nonneg (le_pymin (by norm_num) ?_) (by norm_num)
      refine add_nonneg (div_nonneg (Nat.cast_nonneg _) (Nat.cast_nonneg _)) ?_
      simpa [skill_match_fold] using
        foldl_skill_step_snd_le user career.required_skills (0, 0)
    · calc pymin 1 _ * (2 / 5) ≤ 1 * (2 / 5) :=
            mul_le_mul_of_nonneg_right (pymin_le_left _ _) (by norm_num)
      _ = 2 / 5 := by norm_num

/-- The interest loop never decreases the accumulator when the career's
importances are at least 1 and the user's levels are at least 1. -/
theorem foldl_interest_step_le (user : UserProfile)
    (hu : ∀ p ∈ user.interests, 1 ≤ p.2 ∧ p.2 ≤ 4) :
    ∀ (req : List (String × ℤ)) (acc : ℚ),
      (∀ p ∈ req, 1 ≤ p.2) →
      acc ≤ req.foldl (interest_alignment_step user) acc
  | [], _, _ => le_refl _
  | p :: t, acc, hreq => by
    rw [List.foldl_cons]
    refine le_trans ?_
      (foldl_interest_step_le user hu t _ fun q hq =>
        hreq q (List.mem_cons_of_mem _ hq))
    unfold interest_alignment_step
    rcases hl : user.interests.lookup p.1 with _ | u
    · exact le_refl _
    · dsimp only
      have hu1 : (1 : ℤ) ≤ u := (hu (p.1, u) (lookup_mem hl)).1
      have himp : (1 : ℤ) ≤ p.2 := hreq p (List.mem_cons_self _ _)
      have hterm : 0 ≤ pymin ((u : ℚ) / (p.2 : ℚ)) (3 / 2) := by
        refine le_pymin (div_nonneg ?_ ?_) (by norm_num)
        · exact_mod_cast le_trans zero_le_one hu1
        · exact_mod_cast le_trans zero_le_one himp
      linarith

/-- The interest sub-score lies in `[0, 0.25]` for well-formed inputs. -/
theorem interest_alignment_rule_bounds (user : UserProfile) (career : CareerPath)
    (hu : ∀ p ∈ user.interests, 1 ≤ p.2 ∧ p.2 ≤ 4)
    (hc : ∀ p ∈ career.relevant_interests, 1 ≤ p.2 ∧ p.2 ≤ 4) :
    0 ≤ interest_alignment_rule user career ∧
    interest_alignment_rule user career ≤ 1 / 4 := by
  unfold interest_alignment_rule
  split_ifs with h
  · norm_num
  · constructor
    · refine mul_nonneg (le_pymin (by norm_num) ?_) (by norm_num)
      refine div_nonneg ?_ (Nat.cast_nonneg _)
      simpa using
        foldl_interest_step_le user hu career.relevant_interests 0
          fun p hp => (hc p hp).1
    · calc pymin 1 _ * (1 / 4) ≤ 1 * (1 / 4) :=
            mul_le_mul_of_nonneg_right (pymin_le_left _ _) (by norm_num)
      _ = 1 / 4 := by norm_num

/-- The experience sub-score lies in `[0, 0.15]` for every profile and
career. -/
theorem experience_requirement_rule_bounds (user : UserProfile)
    (career : CareerPath) :
    0 ≤ experience_requirement_rule user career ∧
    experience_requirement_rule user career ≤ 3 / 20 := by
  unfold experience_requirement_rule
  split_ifs with h
  · have hbonus :
        0 ≤ pymin (1 / 5)
          (((user.experience_years - career.min_experience : ℤ) : ℚ) * (1 / 50)) := by
      refine le_pymin (by norm_num) (mul_nonneg ?_ (by norm_num))
      exact_mod_cast sub_nonneg.mpr h
    constructor
    · refine mul_nonneg (le_pymin (by norm_num) (by linarith)) (by norm_num)
    · calc pymin 1 _ * (3 / 20) ≤ 1 * (3 / 20) :=
            mul_le_mul_of_nonneg_right (pymin_le_left _ _) (by norm_num)
      _ = 3 / 20 := by norm_num
  · constructor
    · exact mul_nonneg (le_pymax_left 0 _) (by norm_num)
    · have hdef :
          (0 : ℚ) ≤ ((career.min_experience - user.experience_years : ℤ) : ℚ) := by
        exact_mod_cast sub_nonneg.mpr (le_of_not_le h)
      have hpm :
          0 ≤ pymin (3 / 5)
            (((career.min_experience - user.experience_years : ℤ) : ℚ) * (1 / 10)) :=
        le_pymin (by norm_num) (mul_nonneg hdef (by norm_num))
      calc pymax 0 _ * (3 / 20) ≤ 1 * (3 / 20) := by
            refine mul_le_mul_of_nonneg_right
              (pymax_le (by norm_num) (by linarith)) (by norm_num)
      _ = 3 / 20 := by norm_num

/-- The education sub-score lies in `[0, 0.1]` for every profile and
career. -/
theorem education_compatibility_rule_bounds (user : UserProfile)
    (career : CareerPath) :
    0 ≤ education_compatibility_rule user career ∧
    education_compatibility_rule user career ≤ 1 / 10 := by
  unfold education_compatibility_rule
  dsimp only
  obtain ⟨hu1, _⟩ := education_hierarchy_bounds user.education_level
  obtain ⟨hr1, _⟩ := education_hierarchy_bounds career.min_education
  split_ifs with h
  · norm_num
  · have hur : education_hierarchy user.education_level ≤
        education_hierarchy career.min_education := le_of_not_le h
    have hq :
        ((education_hierarchy user.education_level : ℚ) /
          (education_hierarchy career.min_education : ℚ)) ≤ 1 := by
      rw [div_le_one (by exact_mod_cast lt_of_lt_of_le zero_lt_one hr1)]
      exact_mod_cast hur
    have hq0 :
        0 ≤ ((education_hierarchy user.education_level : ℚ) /
          (education_hierarchy career.min_education : ℚ)) := by
      refine div_nonneg ?_ ?_ <;> exact_mod_cast le_trans zero_le_one (by assumption)
    constructor
    · exact mul_nonneg (le_pymax_left 0 _) (by norm_num)
    · calc pymax 0 _ * (1 / 10) ≤ 1 * (1 / 10) := by
            refine mul_le_mul_of_nonneg_right
              (pymax_le (by norm_num) (by nlinarith)) (by norm_num)
      _ = 1 / 10 := by norm_num

/-- The salary sub-score is one of four constants in `[0, 0.05]`. -/
theorem salary_expectation_rule_bounds (user : UserProfile)
    (career : CareerPath) :
    0 ≤ salary_expectation_rule user career ∧
    salary_expectation_rule user career ≤ 1 / 20 := by
  unfold salary_expectation_rule
  dsimp only
  split_ifs <;> norm_num

/-- The work-style sub-score is 0 or 0.03. -/
theorem work_style_preference_rule_bounds (user : UserProfile)
    (career : CareerPath) :
    0 ≤ work_style_preference_rule user career ∧
    work_style_preference_rule user career ≤ 3 / 100 := by
  unfold work_style_preference_rule
  split_ifs <;> norm_num

/-- The market-demand bonus lies in `[0, 0.01]` on the declared 1..10
scale. -/
theorem market_demand_bonus_rule_bounds (user : UserProfile)
    (career : CareerPath) (h1 : 1 ≤ career.job_market_demand)
    (h10 : career.job_market_demand ≤ 10) :
    0 ≤ market_demand_bonus_rule user career ∧
    market_demand_bonus_rule user career ≤ 1 / 100 := by
  unfold market_demand_bonus_rule
  have hq1 : (0 : ℚ) ≤ (career.job_market_demand : ℚ) := by
    exact_mod_cast le_trans zero_le_one h1
  have hq10 : (career.job_market_demand : ℚ) ≤ 10 := by exact_mod_cast h10
  constructor
  · positivity
  · nlinarith

/-- The growth-potential bonus lies in `[0, 0.01]` on the declared 1..10
scale. -/
theorem growth_potential_bonus_rule_bounds (user : UserProfile)
    (career : CareerPath) (h1 : 1 ≤ career.growth_potential)
    (h10 : career.growth_potential ≤ 10) :
    0 ≤ growth_potential_bonus_rule user career ∧
    growth_potential_bonus_rule user career ≤ 1 / 100 := by
  unfold growth_potential_bonus_rule
  have hq1 : (0 : ℚ) ≤ (career.growth_potential : ℚ) := by
    exact_mod_cast le_trans zero_le_one h1
  have hq10 : (career.growth_potential : ℚ) ≤ 10 := by exact_mod_cast h10
  constructor
  · positivity
  · nlinarith

/-- Claim C1: for every well-formed profile and career record, each of the
eight rule sub-scores is non-negative and the total compatibility score —
the clamped sum — lies between 0.0 and 1.0 inclusive. -/
theorem claim_C1_score_bounds (user : UserProfile) (career : CareerPath)
    (hu : WellFormedProfile user) (hc : WellFormedCareer career) :
    0 ≤ skill_match_rule user career ∧
    0 ≤ interest_alignment_rule user career ∧
    0 ≤ experience_requirement_rule user career ∧
    0 ≤ education_compatibility_rule user career ∧
    0 ≤ salary_expectation_rule user career ∧
    0 ≤ work_style_preference_rule user career ∧
    0 ≤ market_demand_bonus_rule user career ∧
    0 ≤ growth_potential_bonus_rule user career ∧
    (0 ≤ calculate_career_score user career ∧
      calculate_career_score user career ≤ 1) := by
  obtain ⟨hus, hui⟩ := hu
  obtain ⟨hcs, hci, hg, hd⟩ := hc
  obtain ⟨h1, _⟩ := skill_match_rule_bounds user career
  obtain ⟨h2, _⟩ := interest_alignment_rule_bounds user career hui hci
  obtain ⟨h3, _⟩ := experience_requirement_rule_bounds user career
  obtain ⟨h4, _⟩ := education_compatibility_rule_bounds user career
  obtain ⟨h5, _⟩ := salary_expectation_rule_bounds user career
  obtain ⟨h6, _⟩ := work_style_preference_rule_bounds user career
  obtain ⟨h7, _⟩ := market_demand_bonus_rule_bounds user career hd.1 hd.2
  obtain ⟨h8, _⟩ := growth_potential_bonus_rule_bounds user career hg.1 hg.2
  refine ⟨h1, h2, h3, h4, h5, h6, h7, h8, ?_, ?_⟩
  · unfold calculate_career_score
    exact le_pymin (by norm_num) (by linarith)
  · unfold calculate_career_score
    exact pymin_le_left 1 _

/-- Witness for C1 at the concrete scenario inputs. -/
theorem claim_C1_witness :
    WellFormedProfile scenario_user ∧ WellFormedCareer scenario_career ∧
    (0 ≤ calculate_career_score scenario_user scenario_career ∧
      calculate_career_score scenario_user scenario_career ≤ 1) :=
  ⟨by unfold WellFormedProfile; decide, by unfold WellFormedCareer; decide,
    (claim_C1_score_bounds scenario_user scenario_career
      (by unfold WellFormedProfile; decide)
      (by unfold WellFormedCareer; decide)).2.2.2.2.2.2.2.2⟩

/-- If the user holds none of the required skills, the skill loop leaves
the accumulator untouched. -/
theorem foldl_skill_step_no_match (user : UserProfile) :
    ∀ (req : List (String × ℤ)) (acc : ℕ × ℚ),
      (∀ p ∈ req, user.skills.lookup p.1 = none) →
      req.foldl (skill_match_step user) acc = acc
  | [], _, _ => rfl
  | p :: t, acc, h => by
    rw [List.foldl_cons]
    have hp : user.skills.lookup p.1 = none := h p (by simp)
    have hstep : skill_match_step user acc p = acc := by
      unfold skill_match_step
      rw [hp]
    rw [hstep]
    exact foldl_skill_step_no_match user t acc fun q hq => h q (by simp [hq])

/-- A profile holding none of the required skills gets skill sub-score 0
(this covers the empty-requirements case as well). -/
theorem skill_match_rule_no_match (user : UserProfile) (career : CareerPath)
    (h : ∀ p ∈ career.required_skills, user.skills.lookup p.1 = none) :
    skill_match_rule user career = 0 := by
  unfold skill_match_rule
  by_cases hreq : career.required_skills = []
  · rw [if_pos hreq]
  · rw [if_neg hreq]
    unfold skill_match_fold
    rw [foldl_skill_step_no_match user career.required_skills (0, 0) h]
    simp [pymin, zero_div]

/-- Claim C8: a career with an empty required-skills mapping gets skill
sub-score exactly 0 (not a neutral value); and a profile holding none of a
career's required skills gets a skill sub-score of at most 0.05 while the
generated explanation includes the "May need to develop additional skills"
consideration. -/
theorem claim_C8_missing_skills (user : UserProfile) (career : CareerPath) :
    (career.required_skills = [] → skill_match_rule user career = 0) ∧
    ((∀ p ∈ career.required_skills, user.skills.lookup p.1 = none) →
      skill_match_rule user career ≤ 0.05 ∧
      "May need to develop additional skills" ∈
        (generate_explanation user career
          (calculate_career_score user career)).considerations) := by
  constructor
  · intro h
    unfold skill_match_rule
    rw [if_pos h]
  · intro h
    have hrule : skill_match_rule user career = 0 :=
      skill_match_rule_no_match user career h
    refine ⟨by rw [hrule]; norm_num, ?_⟩
    unfold generate_explanation
    rw [hrule]
    norm_num

/-- Replacing the value at one key of an association list either leaves a
lookup unchanged or raises it from the old value to the new one. -/
theorem lookup_update_cases (l₁ l₂ : List (String × ℤ)) (s : String)
    (a b : ℤ) (hab : a ≤ b) :
    ∀ k : String,
      (l₁ ++ (s, a) :: l₂).lookup k = (l₁ ++ (s, b) :: l₂).lookup k ∨
      ∃ x y, (l₁ ++ (s, a) :: l₂).lookup k = some x ∧
        (l₁ ++ (s, b) :: l₂).lookup k = some y ∧ x ≤ y := by
  induction l₁ with
  | nil =>
    intro k
    simp only [List.nil_append, List.lookup]
    rcases hk : (k == s) with _ | _
    · exact Or.inl rfl
    · exact Or.inr ⟨a, b, rfl, rfl, hab⟩
  | cons p l₁ ih =>
    intro k
    obtain ⟨c, v⟩ := p
    simp only [List.cons_append, List.lookup]
    rcases hk : (k == c) with _ | _
    · exact ih k
    · exact Or.inr ⟨v, v, rfl, rfl, le_refl v⟩

/-- One skill-rule iteration is monotone: with a dominating skill map the
matched count and the bonus never fall behind. -/
theorem skill_match_step_mono (user₁ user₂ : UserProfile)
    (hdom : ∀ k, user₁.skills.lookup k = user₂.skills.lookup k ∨
      ∃ x y, user₁.skills.lookup k = some x ∧
        user₂.skills.lookup k = some y ∧ x ≤ y)
    (p : String × ℤ) (acc₁ acc₂ : ℕ × ℚ)
    (h1 : acc₁.1 ≤ acc₂.1) (h2 : acc₁.2 ≤ acc₂.2) :
    (skill_match_step user₁ acc₁ p).1 ≤ (skill_match_step user₂ acc₂ p).1 ∧
    (skill_match_step user₁ acc₁ p).2 ≤ (skill_match_step user₂ acc₂ p).2 := by
  unfold skill_match_step
  rcases hdom p.1 with heq | ⟨x, y, hx, hy, hxy⟩
  · rw [heq]
    rcases hl : user₂.skills.lookup p.1 with _ | u
    · exact ⟨h1, h2⟩
    · dsimp only
      split_ifs with hu
      · exact ⟨Nat.add_le_add_right h1 1, add_le_add_right h2 _⟩
      · exact ⟨h1, h2⟩
  · rw [hx, hy]
    dsimp only
    by_cases hxr : x ≥ p.2
    · have hyr : y ≥ p.2 := le_trans hxr hxy
      rw [if_pos hxr, if_pos hyr]
      refine ⟨Nat.add_le_add_right h1 1, add_le_add h2 (pymax_mono (le_refl 0) ?_)⟩
      have hc : ((x - p.2 : ℤ) : ℚ) ≤ ((y - p.2 : ℤ) : ℚ) := by
        exact_mod_cast sub_le_sub_right hxy p.2
      exact mul_le_mul_of_nonneg_right hc (by norm_num)
    · rw [if_neg hxr]
      by_cases hyr : y ≥ p.2
      · rw [if_pos hyr]
        exact ⟨le_trans h1 (Nat.le_succ _),
          le_trans h2 (le_add_of_nonneg_right (le_pymax_left 0 _))⟩
      · rw [if_neg hyr]
        exact ⟨h1, h2⟩

/-- The whole skill loop is monotone under a dominating skill map. -/
theorem skill_match_fold_mono (user₁ user₂ : UserProfile)
    (hdom : ∀ k, user₁.skills.lookup k = user₂.skills.lookup k ∨
      ∃ x y, user₁.skills.lookup k = some x ∧
        user₂.skills.lookup k = some y ∧ x ≤ y) :
    ∀ (req : List (String × ℤ)) (acc₁ acc₂ : ℕ × ℚ),
      acc₁.1 ≤ acc₂.1 → acc₁.2 ≤ acc₂.2 →
      (req.foldl (skill_match_step user₁) acc₁).1 ≤
        (req.foldl (skill_match_step user₂) acc₂).1 ∧
      (req.foldl (skill_match_step user₁) acc₁).2 ≤
        (req.foldl (skill_match_step user₂) acc₂).2
  | [], _, _, h1, h2 => ⟨h1, h2⟩
  | p :: t, acc₁, acc₂, h1, h2 => by
    rw [List.foldl_cons, List.foldl_cons]
    obtain ⟨g1, g2⟩ := skill_match_step_mono user₁ user₂ hdom p acc₁ acc₂ h1 h2
    exact skill_match_fold_mono user₁ user₂ hdom t _ _ g1 g2

/-- Claim C6: raising the user's level for one skill the career requires
(leaving every other input unchanged) never decreases the skill
sub-score. -/
theorem claim_C6_skill_rule_monotone (user : UserProfile) (career : CareerPath)
    (l₁ l₂ : List (String × ℤ)) (s : String) (a b r : ℤ)
    (_hreq : (s, r) ∈ career.required_skills)
    (hskills : user.skills = l₁ ++ (s, a) :: l₂) (hab : a ≤ b) :
    skill_match_rule user career ≤
      skill_match_rule { user with skills := l₁ ++ (s, b) :: l₂ } career := by
  have hdom : ∀ k, user.skills.lookup k =
      ({ user with skills := l₁ ++ (s, b) :: l₂ } : UserProfile).skills.lookup k ∨
      ∃ x y, user.skills.lookup k = some x ∧
        ({ user with skills := l₁ ++ (s, b) :: l₂ } : UserProfile).skills.lookup k
          = some y ∧ x ≤ y := by
    intro k
    rw [hskills]
    exact lookup_update_cases l₁ l₂ s a b hab k
  unfold skill_match_rule
  split_ifs with h
  · exact le_refl 0
  · obtain ⟨hm, hb⟩ :=
      skill_match_fold_mono user { user with skills := l₁ ++ (s, b) :: l₂ } hdom
        career.required_skills (0, 0) (0, 0) (le_refl 0) (le_refl 0)
    have hlen : (0 : ℚ) < (career.required_skills.length : ℚ) := by
      exact_mod_cast List.length_pos.mpr h
    refine mul_le_mul_of_nonneg_right (pymin_mono (le_refl 1) ?_) (by norm_num)
    refine add_le_add ?_ hb
    exact (div_le_div_iff_of_pos_right hlen).mpr (by exact_mod_cast hm)

/-- The scenario profile with `programming` at `BEGINNER(1)` instead of
`INTERMEDIATE(2)`. -/
def lowSkillUser : UserProfile :=
  { scenario_user with skills := [("programming", 1), ("problem_solving", 3)] }

/-- Witness for C6: raising `programming` (required at level 2 by the
scenario career) from 1 to 2 does not decrease the skill sub-score. -/
theorem claim_C6_witness :
    skill_match_rule lowSkillUser scenario_career ≤
      skill_match_rule
        { lowSkillUser with
            skills := [] ++ ("programming", 2) :: [("problem_solving", 3)] }
        scenario_career :=
  claim_C6_skill_rule_monotone lowSkillUser scenario_career
    [] [("problem_solving", 3)] "programming" 1 2 2 (by decide) rfl (by decide)

/-- The scenario profile stripped of every skill. -/
def noSkillsUser : UserProfile := { scenario_user with skills := [] }

/-- The scenario career stripped of its skill requirements. -/
def emptySkillsCareer : CareerPath := { scenario_career with required_skills := [] }

/-- Witness for C8 at concrete inputs: an empty-requirements career scores
exactly 0, and a skill-less profile against the scenario career scores
at most 0.05 with the development consideration present. -/
theorem claim_C8_witness :
    skill_match_rule noSkillsUser emptySkillsCareer = 0 ∧
    (skill_match_rule noSkillsUser scenario_career ≤ 0.05 ∧
      "May need to develop additional skills" ∈
        (generate_explanation noSkillsUser scenario_career
          (calculate_career_score noSkillsUser scenario_career)).considerations) :=
  ⟨(claim_C8_missing_skills noSkillsUser emptySkillsCareer).1 rfl,
   (claim_C8_missing_skills noSkillsUser scenario_career).2
     (by simp [noSkillsUser, scenario_user, scenario_career, List.lookup])⟩

/-- Inserting a record into a list with `orderedInsert` under the
descending-score relation puts it in front of every equal-scored element it
passes none of: the score-`s` records of the result are exactly the record
(when its score is `s`) followed by the score-`s` records of the old list,
in order. -/
theorem filter_orderedInsert_score (x : Recommendation) (s : ℚ) :
    ∀ l : List Recommendation,
      (l.orderedInsert scoreGe x).filter (fun t => decide (t.2.1 = s)) =
        if x.2.1 = s then
          x :: l.filter (fun t => decide (t.2.1 = s))
        else l.filter (fun t => decide (t.2.1 = s))
  | [] => by
    simp only [List.orderedInsert]
    by_cases hx : x.2.1 = s
    · rw [if_pos hx]
      simp [List.filter, hx]
    · rw [if_neg hx]
      simp [List.filter, hx]
  | y :: l => by
    simp only [List.orderedInsert]
    by_cases hr : scoreGe x y
    · rw [if_pos hr]
      by_cases hx : x.2.1 = s
      · rw [if_pos hx]
        simp [List.filter_cons, hx]
      · rw [if_neg hx]
        simp [List.filter_cons, hx]
    · rw [if_neg hr]
      by_cases hx : x.2.1 = s
      · rw [if_pos hx]
        have hy : ¬ (y.2.1 = s) := fun hys => hr (by
          unfold scoreGe
          rw [hys, hx])
        rw [List.filter_cons, List.filter_cons]
        simp only [decide_eq_true_eq, if_neg hy]
        rw [filter_orderedInsert_score x s l, if_pos hx]
      · rw [if_neg hx]
        rw [List.filter_cons, List.filter_cons]
        rw [filter_orderedInsert_score x s l, if_neg hx]
  termination_by l => l.length

/-- The insertion sort used to model Python's stable `list.sort` preserves,
for every score value `s`, the relative order of the records scoring `s`. -/
theorem filter_insertionSort_score (s : ℚ) :
    ∀ l : List Recommendation,
      (l.insertionSort scoreGe).filter (fun t => decide (t.2.1 = s)) =
        l.filter (fun t => decide (t.2.1 = s))
  | [] => rfl
  | x :: l => by
    simp only [List.insertionSort]
    rw [filter_orderedInsert_score x s (l.insertionSort scoreGe),
      filter_insertionSort_score s l, List.filter_cons]
    by_cases hx : x.2.1 = s
    · rw [if_pos hx]
      simp [hx]
    · rw [if_neg hx]
      simp [hx]

/-- Claim C2: `get_recommendations` returns `min top_n |catalog|` scored,
explained careers, sorted by score non-increasing, and — stability — for
every score value the careers carrying it appear in the catalog's original
iteration order (the filtered output is a prefix of the equally-scored
careers of the catalog, in catalog order). -/
theorem claim_C2_recommendations (career_paths : List CareerPath)
    (user : UserProfile) (top_n : ℕ) :
    (get_recommendations career_paths user top_n).length =
      min top_n career_paths.length ∧
    ((get_recommendations career_paths user top_n).map fun t => t.2.1).Pairwise
      (fun a b => b ≤ a) ∧
    ∀ s : ℚ, ∃ rest : List CareerPath,
      ((get_recommendations career_paths user top_n).filter
          (fun t => decide (t.2.1 = s))).map (fun t => t.1) ++ rest =
        career_paths.filter fun c => decide (calculate_career_score user c = s) := by
  unfold get_recommendations
  dsimp only
  refine ⟨?_, ?_, ?_⟩
  · rw [List.length_take, List.length_insertionSort, List.length_map]
  · have hs : (((career_paths.map fun career =>
        (career, calculate_career_score user career,
          generate_explanation user career
            (calculate_career_score user career))).insertionSort
              scoreGe).take top_n).Pairwise scoreGe :=
      List.Pairwise.sublist (List.take_sublist _ _)
        (List.sorted_insertionSort scoreGe _)
    exact List.pairwise_map.mpr hs
  · intro s
    refine ⟨((((career_paths.map fun career =>
        (career, calculate_career_score user career,
          generate_explanation user career
            (calculate_career_score user career))).insertionSort
              scoreGe).drop top_n).filter
        (fun t => decide (t.2.1 = s))).map (fun t => t.1), ?_⟩
    rw [← List.map_append, ← List.filter_append, List.take_append_drop,
      filter_insertionSort_score s, List.filter_map, List.map_map]
    simp [Function.comp_def]

end RuleEngine

/-- Claim C10 (implicit): `core/rule_engine.py` defines `RuleEngine` twice;
the module attribute resolves to the second definition, which has no
scoring methods, and its `get_recommendations` returns the same fixed
placeholder string for every query. -/
theorem claim_C10_second_definition_wins :
    moduleAttr "RuleEngine" = some RuleEngineClass.secondDef ∧
    "calculate_career_score" ∉ ruleEngineMethods RuleEngineClass.secondDef ∧
    "_skill_match_rule" ∉ ruleEngineMethods RuleEngineClass.secondDef ∧
    ∀ user_query : String,
      secondGetRecommendations user_query =
        "Based on our rule engine, here are some careers you might be " ++
        "interested in:\n- Software Developer\n- Data Analyst\n" ++
        "- UX/UI Designer\n(Note: This is a placeholder response.)" := by
  refine ⟨by simp [moduleAttr, ruleEngineBindings], by decide, by decide,
    fun user_query => ?_⟩
  rfl

end CareerAdvisor
